import Mathlib

/-!
# Shallow embedding of `logwatch` (`src/main.rs`)

The program is a single-file log monitor: an inotify-driven control loop
that incrementally reads a watched auth log, matches each new line against
two literal failure signatures, tracks match timestamps per pattern in a
sliding 300-second window, and prints an alert when a pattern accumulates
three occurrences.

Modelling conventions:
* Bytes are `Nat` (< 256 in practice); byte buffers are `List Nat`.
* Strings (Rust `String` / `str`) are sequences of Unicode code points,
  `List Nat`, obtained from byte buffers via `from_utf8_lossy`.
* `Instant::now()` is modelled by an explicit `now : Nat` parameter
  (seconds); `Instant::elapsed` at cleanup time is `now - t`, which like
  Rust's saturating `Instant` arithmetic never goes below zero.
* The file system is modelled by passing, at every event, the file's byte
  content at the moment of the read; `fs::metadata(..).len()` is that
  content's length.
* The inotify event stream delivers `Event` values (mask flags plus the
  optional `name` field); the loop body over one `Ok(event)` is
  `handleEvent`, and a whole run is a fold over a list of
  (event, time, content) triples.
-/

/-! ### Bytes, strings and substring matching -/

/-- Code points of a Lean string literal: the model of a Rust `String`
constant such as the two failure messages. -/
def strBytes (s : String) : List Nat :=
  s.data.map Char.toNat

/-- `startsWithL l p` is true iff `p` is a prefix of `l`. -/
def startsWithL : List Nat → List Nat → Bool
  | _, [] => true
  | [], _ :: _ => false
  | a :: as, b :: bs => (a == b) && startsWithL as bs

/-- `containsSub l p`: `p` occurs as a contiguous subsequence of `l`;
the model of Rust `str::contains` on a literal pattern. -/
def containsSub : List Nat → List Nat → Bool
  | [], p => startsWithL [] p
  | a :: as, p => startsWithL (a :: as) p || containsSub as p

/-- A UTF-8 continuation byte: `0x80 ≤ b ≤ 0xBF`. -/
def contByte (b : Nat) : Bool :=
  0x80 ≤ b && b ≤ 0xBF

/-- Valid second byte of a three-byte sequence headed by `b`
(`0xE0 ≤ b ≤ 0xEF`): the ranges exclude overlong forms and surrogates. -/
def validSecond3 (b c : Nat) : Bool :=
  if b == 0xE0 then 0xA0 ≤ c && c ≤ 0xBF
  else if b == 0xED then 0x80 ≤ c && c ≤ 0x9F
  else contByte c

/-- Valid second byte of a four-byte sequence headed by `b`
(`0xF0 ≤ b ≤ 0xF4`): the ranges exclude overlong forms and
code points above `U+10FFFF`. -/
def validSecond4 (b c : Nat) : Bool :=
  if b == 0xF0 then 0x90 ≤ c && c ≤ 0xBF
  else if b == 0xF4 then 0x80 ≤ c && c ≤ 0x8F
  else contByte c

/-- Model of Rust `String::from_utf8_lossy`: decodes a byte buffer into a
code-point sequence, replacing each maximal ill-formed subpart with one
`U+FFFD` (the substitution-of-maximal-subparts strategy `std` implements:
on an error of length `k` the `k` offending bytes become one replacement
character and decoding resumes right after them; an incomplete sequence at
end of input becomes one replacement character). -/
def from_utf8_lossy : List Nat → List Nat
  | [] => []
  | b :: rest =>
    if b ≤ 0x7F then
      b :: from_utf8_lossy rest
    else if b ≤ 0xC1 then
      -- stray continuation byte or overlong two-byte lead
      0xFFFD :: from_utf8_lossy rest
    else if b ≤ 0xDF then
      match rest with
      | [] => [0xFFFD]
      | c :: r2 =>
        if contByte c then
          ((b - 0xC0) * 64 + (c - 0x80)) :: from_utf8_lossy r2
        else
          0xFFFD :: from_utf8_lossy (c :: r2)
    else if b ≤ 0xEF then
      match rest with
      | [] => [0xFFFD]
      | c :: r2 =>
        if validSecond3 b c then
          match r2 with
          | [] => [0xFFFD]
          | d :: r3 =>
            if contByte d then
              ((b - 0xE0) * 4096 + (c - 0x80) * 64 + (d - 0x80)) ::
                from_utf8_lossy r3
            else
              0xFFFD :: from_utf8_lossy (d :: r3)
        else
          0xFFFD :: from_utf8_lossy (c :: r2)
    else if b ≤ 0xF4 then
      match rest with
      | [] => [0xFFFD]
      | c :: r2 =>
        if validSecond4 b c then
          match r2 with
          | [] => [0xFFFD]
          | d :: r3 =>
            if contByte d then
              match r3 with
              | [] => [0xFFFD]
              | e :: r4 =>
                if contByte e then
                  ((b - 0xF0) * 262144 + (c - 0x80) * 4096 +
                      (d - 0x80) * 64 + (e - 0x80)) ::
                    from_utf8_lossy r4
                else
                  0xFFFD :: from_utf8_lossy (e :: r4)
            else
              0xFFFD :: from_utf8_lossy (d :: r3)
        else
          0xFFFD :: from_utf8_lossy (c :: r2)
    else
      -- 0xF5..0xFF can never start a sequence
      0xFFFD :: from_utf8_lossy rest

/-- Strict UTF-8 validity of a byte buffer, with exactly the byte-level
case analysis of `from_utf8_lossy`: `validUtf8 l = true` iff `l` decodes
with no replacement. -/
def validUtf8 : List Nat → Bool
  | [] => true
  | b :: rest =>
    if b ≤ 0x7F then
      validUtf8 rest
    else if b ≤ 0xC1 then
      false
    else if b ≤ 0xDF then
      match rest with
      | [] => false
      | c :: r2 => contByte c && validUtf8 r2
    else if b ≤ 0xEF then
      match rest with
      | [] => false
      | c :: r2 =>
        validSecond3 b c &&
          match r2 with
          | [] => false
          | d :: r3 => contByte d && validUtf8 r3
    else if b ≤ 0xF4 then
      match rest with
      | [] => false
      | c :: r2 =>
        validSecond4 b c &&
          match r2 with
          | [] => false
          | d :: r3 =>
            contByte d &&
              match r3 with
              | [] => false
              | e :: r4 => contByte e && validUtf8 r4
    else
      false

/-! ### Incremental line reading

`reader.read_until(b'\n', &mut linebuffer)` fills the buffer up to and
including the first newline byte, or to end of file; the read loop breaks
when it returns 0 bytes.  So the bytes past the stored offset decompose
into lines each ending in `\n`, except possibly an unterminated final
line, which the loop still processes. -/

/-- Split a byte buffer into the successive lines `read_until(b'\n', ..)`
yields: each chunk keeps its trailing newline byte; a final chunk without
a newline is still a line. -/
def splitLines : List Nat → List (List Nat)
  | [] => []
  | b :: rest =>
    if b == 10 then
      [10] :: splitLines rest
    else
      match splitLines rest with
      | [] => [[b]]
      | l :: ls => (b :: l) :: ls

/-! ### Data model from `main.rs` -/

/-- `struct Watched` (main.rs:11-16): path decomposition plus the current
read offset `pos`. -/
structure Watched where
  path : String
  file : String
  dir : String
  pos : Nat
deriving Repr, DecidableEq

/-- `Watched::set_pos` (main.rs:28-30). -/
def Watched.set_pos (w : Watched) (n : Nat) : Watched :=
  { w with pos := n }

/-- `enum Auth` (main.rs:33-37). -/
inductive Auth where
  | Sudo
  | System
deriving Repr, DecidableEq

/-- `struct FailureMap` (main.rs:39-43): per-pattern occurrence
timestamps, in insertion order. -/
structure FailureMap where
  auth_type : Auth
  auth_time : List Nat
deriving Repr, DecidableEq

/-- `FailureMap::new` (main.rs:46-51). -/
def FailureMap.new (a : Auth) : FailureMap :=
  { auth_type := a, auth_time := [] }

/-- `FailureMap::add` (main.rs:53-55); `Instant::now()` is the explicit
`now` argument. -/
def FailureMap.add (m : FailureMap) (now : Nat) : FailureMap :=
  { m with auth_time := m.auth_time ++ [now] }

/-- `struct AuthFailure` (main.rs:58-61). -/
structure AuthFailure where
  kind : Auth
  message : String

/-- `sudo_failure` (main.rs:72-75). -/
def sudo_failure : AuthFailure :=
  { kind := Auth.Sudo,
    message := "pam_unix(sudo:auth): authentication failure;" }

/-- `systemauth_failure` (main.rs:76-79). -/
def systemauth_failure : AuthFailure :=
  { kind := Auth.System,
    message := "pam_unix(system-auth:auth): authentication failure;" }

/-- The relevant inotify event-mask flags. -/
inductive EventMask where
  | CREATE
  | MOVED_FROM
  | MODIFY
  | MOVE_SELF
  | IGNORED
deriving Repr, DecidableEq

/-- An inotify event as the loop consumes it: its mask flags and the
optional `name` field (set on directory-watch events, absent on
file-watch events). -/
structure Event where
  mask : List EventMask
  name : Option String
deriving Repr, DecidableEq

/-- The control loop's mutable state: the watch target and the two
failure maps. -/
structure LoopState where
  watch : Watched
  sudo_map : FailureMap
  system_map : FailureMap
deriving Repr, DecidableEq

/-! ### Line processing and the event loop -/

/-- Processing of one line buffer (main.rs:126-143): lossily decode,
match each pattern's literal, record a timestamp per match, and on a
map reaching 3 entries print the alert and clear the map.  Returns the
two updated maps and the alert lines printed. -/
def processLine (linebuffer : List Nat) (now : Nat)
    (sudo_map system_map : FailureMap) :
    FailureMap × FailureMap × List String :=
  let decoded := from_utf8_lossy linebuffer
  let (sudo_map, sudoAlerts) :=
    if containsSub decoded (strBytes sudo_failure.message) then
      let m := sudo_map.add now
      if 3 ≤ m.auth_time.length then
        ({ m with auth_time := [] }, ["sudo bashing detected"])
      else
        (m, [])
    else
      (sudo_map, [])
  let (system_map, systemAlerts) :=
    if containsSub decoded (strBytes systemauth_failure.message) then
      let m := system_map.add now
      if 3 ≤ m.auth_time.length then
        ({ m with auth_time := [] }, ["system-auth bashing detected"])
      else
        (m, [])
    else
      (system_map, [])
  (sudo_map, system_map, sudoAlerts ++ systemAlerts)

/-- The `read_until` loop (main.rs:120-145) over the lines read past the
stored offset. -/
def processLines (lines : List (List Nat)) (now : Nat)
    (sudo_map system_map : FailureMap) :
    FailureMap × FailureMap × List String :=
  match lines with
  | [] => (sudo_map, system_map, [])
  | l :: ls =>
    let (s1, y1, a1) := processLine l now sudo_map system_map
    let (s2, y2, a2) := processLines ls now s1 y1
    (s2, y2, a1 ++ a2)

/-- The sliding-window cleanup (main.rs:148-159): retain the timestamps
whose elapsed time is at most 300 seconds. -/
def cleanup (m : FailureMap) (now : Nat) : FailureMap :=
  { m with auth_time := m.auth_time.filter (fun x => now - x ≤ 300) }

/-- The read branch of the loop body (main.rs:114-159): stat the file,
open it, seek to the stored offset, read and process every new line,
record the measured size as the new offset, then prune both maps. -/
def readCycle (st : LoopState) (now : Nat) (content : List Nat) :
    LoopState × List String :=
  let metadataLen := content.length
  let lines := splitLines (content.drop st.watch.pos)
  let (s1, y1, alerts) := processLines lines now st.sudo_map st.system_map
  { watch := st.watch.set_pos metadataLen,
    sudo_map := cleanup s1 now,
    system_map := cleanup y1 now } |> fun st' => (st', alerts)

/-- The loop body for one `Ok(event)` (main.rs:98-161).  Events whose
`name` equals the watched filename are directory events: `MOVED_FROM` is
ignored and `CREATE` resets the offset to 0 (and re-registers the file
watch, which carries no model state).  Every other event is treated as a
file event: `MOVE_SELF` does nothing, anything else runs the read
branch. -/
def handleEvent (st : LoopState) (ev : Event) (now : Nat)
    (content : List Nat) : LoopState × List String :=
  if some st.watch.file = ev.name then
    if EventMask.MOVED_FROM ∈ ev.mask then
      (st, [])
    else if EventMask.CREATE ∈ ev.mask then
      ({ st with watch := st.watch.set_pos 0 }, [])
    else
      (st, [])
  else
    if EventMask.MOVE_SELF ∈ ev.mask then
      (st, [])
    else
      readCycle st now content

/-- A run of the control loop over a list of delivered events, each with
the time and file content at its delivery; collects all alerts printed. -/
def run (st : LoopState) : List (Event × Nat × List Nat) →
    LoopState × List String
  | [] => (st, [])
  | (ev, now, content) :: rest =>
    let (st1, a1) := handleEvent st ev now content
    let (st2, a2) := run st1 rest
    (st2, a1 ++ a2)

/-- Startup initialization of the watch target (main.rs:65-70):
`Watched::new` sets `pos := 0`; if the path is a file, `set_pos` to its
measured size. -/
def initWatched (path file dir : String) (isFile : Bool) (size : Nat) :
    Watched :=
  let w : Watched := { path := path, file := file, dir := dir, pos := 0 }
  if isFile then w.set_pos size else w

/-- The startup state of the whole loop (main.rs:65-82). -/
def initState (isFile : Bool) (size : Nat) : LoopState :=
  { watch := initWatched "/var/log/auth.log" "auth.log" "/var/log"
      isFile size,
    sudo_map := FailureMap.new Auth.Sudo,
    system_map := FailureMap.new Auth.System }

/-! ### Concrete scenario material -/

/-- One log line consisting of the sudo failure literal and a newline. -/
def sudoLine : List Nat := strBytes sudo_failure.message ++ [10]

/-- A file-watch Modify event: inotify events delivered through a watch on
the file itself carry no `name`. -/
def modifyEvent : Event := { mask := [EventMask.MODIFY], name := none }

/-- A file-watch invalidation event (`IN_IGNORED`), delivered after a
watch is removed or its object deleted; it carries no `name`. -/
def invalidatedEvent : Event := { mask := [EventMask.IGNORED], name := none }

/-- A 200-byte file that starts with a sudo failure line: the content of
the watched file after an external truncation-and-rewrite. -/
def truncatedContent : List Nat := sudoLine ++ List.replicate 155 97

/-- A line that contains the sudo failure literal followed by a byte that
can never appear in well-formed UTF-8. -/
def badLine : List Nat := strBytes sudo_failure.message ++ [255, 10]

/-! ### Helper lemmas -/

/-- Processing a pure sudo-failure line: the sudo literal matches, the
system-auth literal does not, so only the sudo map is touched. -/
lemma processLine_sudoLine (now : Nat) (s y : FailureMap) :
    processLine sudoLine now s y =
      if 3 ≤ s.auth_time.length + 1 then
        ({ auth_type := s.auth_type, auth_time := [] }, y, ["sudo bashing detected"])
      else
        (s.add now, y, []) := by
  have hc : containsSub (from_utf8_lossy sudoLine) (strBytes sudo_failure.message) = true := by
    decide
  have hc2 : containsSub (from_utf8_lossy sudoLine)
      (strBytes systemauth_failure.message) = false := by
    decide
  unfold processLine
  simp [hc, hc2, FailureMap.add]
  split <;> rfl

/-- A Modify event from the file watch always dispatches to the read
branch. -/
lemma handleEvent_modify (st : LoopState) (now : Nat) (content : List Nat) :
    handleEvent st modifyEvent now content = readCycle st now content := by
  unfold handleEvent modifyEvent
  simp

/-- The read branch when exactly one new sudo-failure line appeared. -/
lemma readCycle_sudoLine (st : LoopState) (now : Nat) (content : List Nat)
    (h : splitLines (content.drop st.watch.pos) = [sudoLine]) :
    readCycle st now content =
      if 3 ≤ st.sudo_map.auth_time.length + 1 then
        ({ watch := st.watch.set_pos content.length,
           sudo_map := cleanup { auth_type := st.sudo_map.auth_type, auth_time := [] } now,
           system_map := cleanup st.system_map now }, ["sudo bashing detected"])
      else
        ({ watch := st.watch.set_pos content.length,
           sudo_map := cleanup (st.sudo_map.add now) now,
           system_map := cleanup st.system_map now }, []) := by
  unfold readCycle
  rw [h]
  simp [processLines, processLine_sudoLine]
  split <;> rfl

/-- After a read cycle the stored offset is the measured file size. -/
lemma readCycle_pos (st : LoopState) (now : Nat) (content : List Nat) :
    (readCycle st now content).1.watch.pos = content.length := by
  unfold readCycle
  rcases processLines (splitLines (content.drop st.watch.pos)) now st.sudo_map st.system_map
    with ⟨s1, y1, alerts⟩
  simp [Watched.set_pos]

set_option maxHeartbeats 1000000 in
/-- A buffer rejected by strict UTF-8 validation decodes under
`from_utf8_lossy` to a sequence containing the replacement character. -/
lemma replacement_of_invalid : ∀ bs : List Nat, validUtf8 bs = false →
    (0xFFFD : Nat) ∈ from_utf8_lossy bs := by
  intro bs
  induction bs using from_utf8_lossy.induct <;> intro h <;>
    rw [validUtf8.eq_def] at h <;>
    rw [from_utf8_lossy.eq_def] <;>
    (try simp_all)
  all_goals split_ifs <;> (try simp_all) <;> omega

/-- One line step keeps both occurrence lists at length at most 2. -/
lemma processLine_len (l : List Nat) (now : Nat) (s y : FailureMap)
    (hs : s.auth_time.length ≤ 2) (hy : y.auth_time.length ≤ 2) :
    (processLine l now s y).1.auth_time.length ≤ 2 ∧
    (processLine l now s y).2.1.auth_time.length ≤ 2 := by
  unfold processLine
  dsimp only
  split_ifs <;> simp_all [FailureMap.add] <;> omega

/-- The read loop keeps both occurrence lists at length at most 2. -/
lemma processLines_len (lines : List (List Nat)) (now : Nat) (s y : FailureMap)
    (hs : s.auth_time.length ≤ 2) (hy : y.auth_time.length ≤ 2) :
    (processLines lines now s y).1.auth_time.length ≤ 2 ∧
    (processLines lines now s y).2.1.auth_time.length ≤ 2 := by
  induction lines generalizing s y with
  | nil => exact ⟨hs, hy⟩
  | cons l ls ih =>
    rcases hp : processLine l now s y with ⟨s1, y1, a1⟩
    have h1 := processLine_len l now s y hs hy
    rw [hp] at h1
    have h2 := ih s1 y1 h1.1 h1.2
    rcases hq : processLines ls now s1 y1 with ⟨s2, y2, a2⟩
    rw [hq] at h2
    unfold processLines
    simp only [hp, hq]
    exact h2

/-- Pruning never lengthens an occurrence list. -/
lemma cleanup_len (m : FailureMap) (now : Nat) :
    (cleanup m now).auth_time.length ≤ m.auth_time.length :=
  List.length_filter_le _ _

/-! ### Claims -/

set_option maxRecDepth 8000 in
/-- Claim C1, counterexample.  Occurrences of the sudo pattern arrive at
times 0, 100 and 301 (so `t3 - t1 = 301 > 300`).  The claim says the
tracker queried at `t3` holds only the two fresh occurrences and the
threshold of 3 is not crossed.  The code instead appends the third
occurrence and checks the threshold *before* the cleanup runs, so the
stale occurrence still counts: the alert fires and the tracker is
cleared, holding neither 100 nor 301. -/
theorem threshold_crossed_by_stale_occurrence :
    run (initState false 0)
      [(modifyEvent, 0, sudoLine),
       (modifyEvent, 100, sudoLine ++ sudoLine),
       (modifyEvent, 301, sudoLine ++ sudoLine ++ sudoLine)] =
    ({ watch := { path := "/var/log/auth.log", file := "auth.log",
                  dir := "/var/log", pos := 135 },
       sudo_map := { auth_type := Auth.Sudo, auth_time := [] },
       system_map := { auth_type := Auth.System, auth_time := [] } },
     ["sudo bashing detected"]) := by
  decide

/-- Claim C1, amended.  Per matched line the tracker records, then checks
the threshold, and prunes only after the whole read; so for occurrences
at `t1 ≤ t2 ≤ t3` with `t2` within the window of `t1` and
`t3 - t1 > 300`, the stale first occurrence still counts at `t3`: the
threshold IS crossed, exactly one alert fires, and the tracker is cleared
rather than holding the two fresh occurrences. -/
theorem record_check_then_prune_alerts_on_stale_window
    (t1 t2 t3 : Nat) (h12 : t1 ≤ t2) (h23 : t2 ≤ t3)
    (hwin : t2 - t1 ≤ 300) (hstale : 300 < t3 - t1) :
    run (initState false 0)
      [(modifyEvent, t1, sudoLine),
       (modifyEvent, t2, sudoLine ++ sudoLine),
       (modifyEvent, t3, sudoLine ++ sudoLine ++ sudoLine)] =
    ({ watch := { path := "/var/log/auth.log", file := "auth.log",
                  dir := "/var/log", pos := 135 },
       sudo_map := { auth_type := Auth.Sudo, auth_time := [] },
       system_map := { auth_type := Auth.System, auth_time := [] } },
     ["sudo bashing detected"]) := by
  have e1 : splitLines (List.drop (initState false 0).watch.pos sudoLine) = [sudoLine] := by
    decide
  have h1 : handleEvent (initState false 0) modifyEvent t1 sudoLine =
      ({ watch := { path := "/var/log/auth.log", file := "auth.log",
                    dir := "/var/log", pos := 45 },
         sudo_map := { auth_type := Auth.Sudo, auth_time := [t1] },
         system_map := { auth_type := Auth.System, auth_time := [] } }, []) := by
    rw [handleEvent_modify, readCycle_sudoLine _ _ _ e1]
    simp [initState, initWatched, Watched.set_pos, cleanup, FailureMap.add,
      FailureMap.new, List.filter]
    decide
  have e2 : splitLines (List.drop 45 (sudoLine ++ sudoLine)) = [sudoLine] := by
    decide
  have h2 : handleEvent
      ({ watch := { path := "/var/log/auth.log", file := "auth.log",
                    dir := "/var/log", pos := 45 },
         sudo_map := { auth_type := Auth.Sudo, auth_time := [t1] },
         system_map := { auth_type := Auth.System, auth_time := [] } } : LoopState)
      modifyEvent t2 (sudoLine ++ sudoLine) =
      ({ watch := { path := "/var/log/auth.log", file := "auth.log",
                    dir := "/var/log", pos := 90 },
         sudo_map := { auth_type := Auth.Sudo, auth_time := [t1, t2] },
         system_map := { auth_type := Auth.System, auth_time := [] } }, []) := by
    rw [handleEvent_modify, readCycle_sudoLine _ _ _ e2]
    have hle : t2 ≤ 300 + t1 := by omega
    simp [Watched.set_pos, cleanup, FailureMap.add, List.filter, hle, Nat.sub_self]
    decide
  have e3 : splitLines (List.drop 90 (sudoLine ++ sudoLine ++ sudoLine)) = [sudoLine] := by
    decide
  have h3 : handleEvent
      ({ watch := { path := "/var/log/auth.log", file := "auth.log",
                    dir := "/var/log", pos := 90 },
         sudo_map := { auth_type := Auth.Sudo, auth_time := [t1, t2] },
         system_map := { auth_type := Auth.System, auth_time := [] } } : LoopState)
      modifyEvent t3 (sudoLine ++ sudoLine ++ sudoLine) =
      ({ watch := { path := "/var/log/auth.log", file := "auth.log",
                    dir := "/var/log", pos := 135 },
         sudo_map := { auth_type := Auth.Sudo, auth_time := [] },
         system_map := { auth_type := Auth.System, auth_time := [] } },
       ["sudo bashing detected"]) := by
    rw [handleEvent_modify, readCycle_sudoLine _ _ _ e3]
    simp [Watched.set_pos, cleanup, FailureMap.add, List.filter]
    decide
  simp only [run, h1, h2, h3, List.append_nil, List.nil_append]

/-- Claim C1, witness for the amended theorem at times 0, 10, 301. -/
theorem record_check_then_prune_alerts_on_stale_window_witness :
    run (initState false 0)
      [(modifyEvent, 0, sudoLine),
       (modifyEvent, 10, sudoLine ++ sudoLine),
       (modifyEvent, 301, sudoLine ++ sudoLine ++ sudoLine)] =
    ({ watch := { path := "/var/log/auth.log", file := "auth.log",
                  dir := "/var/log", pos := 135 },
       sudo_map := { auth_type := Auth.Sudo, auth_time := [] },
       system_map := { auth_type := Auth.System, auth_time := [] } },
     ["sudo bashing detected"]) :=
  record_check_then_prune_alerts_on_stale_window 0 10 301
    (by decide) (by decide) (by decide) (by decide)

set_option maxRecDepth 8000 in
/-- Claim C2.  With the stored offset at 1000 and the current file 200
bytes long (external truncation; the file now starts with a sudo failure
line), the code does not reset the offset to 0 and does not scan the file
from its start: it seeks to the stored offset, reads nothing, leaves both
trackers empty, and records the measured size 200 as the new offset. -/
theorem truncation_keeps_offset_and_skips_rescan (now : Nat) :
    truncatedContent.length = 200 ∧
    handleEvent
      { watch := { path := "/var/log/auth.log", file := "auth.log",
                   dir := "/var/log", pos := 1000 },
        sudo_map := FailureMap.new Auth.Sudo,
        system_map := FailureMap.new Auth.System }
      modifyEvent now truncatedContent =
    ({ watch := { path := "/var/log/auth.log", file := "auth.log",
                  dir := "/var/log", pos := 200 },
       sudo_map := { auth_type := Auth.Sudo, auth_time := [] },
       system_map := { auth_type := Auth.System, auth_time := [] } }, []) := by
  refine ⟨by decide, ?_⟩
  rw [handleEvent_modify]
  unfold readCycle
  have hd : List.drop 1000 truncatedContent = [] := by decide
  simp [hd, splitLines, processLines, cleanup, FailureMap.new, Watched.set_pos]
  decide

/-- Claim C3.  With the threshold at 3: recording the first and second
sudo occurrences emits no alert; the third occurrence emits exactly one
alert and hard-resets the occurrence list; after the reset the next match
only records again, so no further alert until a fresh burst of 3. -/
theorem threshold_edge_alerts_once_then_resets (n1 n2 n3 : Nat) (y : FailureMap) :
    processLine sudoLine n1 (FailureMap.new Auth.Sudo) y =
      ({ auth_type := Auth.Sudo, auth_time := [n1] }, y, []) ∧
    processLine sudoLine n2 { auth_type := Auth.Sudo, auth_time := [n1] } y =
      ({ auth_type := Auth.Sudo, auth_time := [n1, n2] }, y, []) ∧
    processLine sudoLine n3 { auth_type := Auth.Sudo, auth_time := [n1, n2] } y =
      ({ auth_type := Auth.Sudo, auth_time := [] }, y, ["sudo bashing detected"]) ∧
    processLine sudoLine n3 { auth_type := Auth.Sudo, auth_time := [] } y =
      ({ auth_type := Auth.Sudo, auth_time := [n3] }, y, []) := by
  simp [processLine_sudoLine, FailureMap.new, FailureMap.add]

set_option maxRecDepth 8000 in
/-- Claim C4, counterexample.  A file-level event whose mask is only
`IGNORED` (the watch-invalidated flag) is not skipped: the loop runs a
full read cycle for it, advancing the offset and recording a match, so
the claim that `MoveSelf` *or* `WatchInvalidated` events leave everything
untouched is false for `WatchInvalidated`. -/
theorem invalidated_watch_event_still_reads :
    (handleEvent (initState false 0) invalidatedEvent 5 sudoLine).1.watch.pos = 45 ∧
    (handleEvent (initState false 0) invalidatedEvent 5 sudoLine).1.sudo_map.auth_time = [5] ∧
    (initState false 0).watch.pos = 0 ∧
    (initState false 0).sudo_map.auth_time = [] := by
  decide

/-- Claim C4, amended.  Only a file-level event whose kind includes
`MoveSelf` is skipped: for such an event no read is attempted, the
offset, both trackers and the whole state are left untouched, and no
alert is printed.  (An event carrying only `WatchInvalidated` instead
falls through to the read branch.) -/
theorem move_self_event_reads_nothing (st : LoopState) (ev : Event)
    (now : Nat) (content : List Nat)
    (hname : ev.name ≠ some st.watch.file)
    (hms : EventMask.MOVE_SELF ∈ ev.mask) :
    handleEvent st ev now content = (st, []) := by
  unfold handleEvent
  rw [if_neg (fun h => hname h.symm), if_pos hms]

/-- Claim C4, witness: a `MOVE_SELF` event leaves the startup state
untouched. -/
theorem move_self_event_reads_nothing_witness :
    handleEvent (initState false 0)
      ({ mask := [EventMask.MOVE_SELF], name := none } : Event) 7 sudoLine =
    (initState false 0, []) :=
  move_self_event_reads_nothing _ _ _ _ (by decide) (by decide)

/-- Claim C5.  If every measured size at a read is at least the stored
offset (append-only writes), then: a rotation event (directory `Created`
for the watched filename, with `MovedFrom` absent) sets the offset to
exactly 0, after which a read scans any replacement content from its
start; and every non-rotation event leaves the offset no smaller than
before. -/
theorem offset_nondecreasing_until_rotation_reset (st : LoopState)
    (ev : Event) (now : Nat) (content : List Nat)
    (happ : st.watch.pos ≤ content.length) :
    ((ev.name = some st.watch.file ∧ EventMask.MOVED_FROM ∉ ev.mask ∧
        EventMask.CREATE ∈ ev.mask) →
      (handleEvent st ev now content).1.watch.pos = 0 ∧
      ∀ c' : List Nat,
        splitLines (List.drop (handleEvent st ev now content).1.watch.pos c') =
          splitLines c') ∧
    (¬(ev.name = some st.watch.file ∧ EventMask.MOVED_FROM ∉ ev.mask ∧
        EventMask.CREATE ∈ ev.mask) →
      st.watch.pos ≤ (handleEvent st ev now content).1.watch.pos) := by
  constructor
  · rintro ⟨hn, hmf, hc⟩
    have h : handleEvent st ev now content =
        ({ st with watch := st.watch.set_pos 0 }, []) := by
      unfold handleEvent
      rw [if_pos hn.symm, if_neg hmf, if_pos hc]
    rw [h]
    exact ⟨by simp [Watched.set_pos], by simp [Watched.set_pos]⟩
  · intro hnot
    unfold handleEvent
    by_cases hn : some st.watch.file = ev.name
    · rw [if_pos hn]
      by_cases hmf : EventMask.MOVED_FROM ∈ ev.mask
      · rw [if_pos hmf]
      · rw [if_neg hmf]
        by_cases hc : EventMask.CREATE ∈ ev.mask
        · exact absurd ⟨hn.symm, hmf, hc⟩ hnot
        · rw [if_neg hc]
    · rw [if_neg hn]
      by_cases hms : EventMask.MOVE_SELF ∈ ev.mask
      · rw [if_pos hms]
      · rw [if_neg hms]
        exact happ.trans (readCycle_pos st now content).ge

set_option maxRecDepth 8000 in
/-- Claim C5, witness: a rotation event with the offset at 500 resets it
to exactly 0. -/
theorem offset_nondecreasing_until_rotation_reset_witness :
    (handleEvent
      ({ watch := { path := "/var/log/auth.log", file := "auth.log",
                    dir := "/var/log", pos := 500 },
         sudo_map := FailureMap.new Auth.Sudo,
         system_map := FailureMap.new Auth.System } : LoopState)
      ({ mask := [EventMask.CREATE], name := some "auth.log" } : Event)
      0 (List.replicate 500 97)).1.watch.pos = 0 :=
  ((offset_nondecreasing_until_rotation_reset _ _ 0 _ (by simp)).1 (by decide)).1

/-- Claim C6.  At startup the offset is initialized to the file's current
size when the file exists and to 0 otherwise; consequently a read of the
unchanged file content finds no new lines: nothing pre-existing is
scanned or matched, the state is exactly the startup state and no alert
is printed. -/
theorem startup_offset_is_current_size (p f d : String)
    (content : List Nat) (s now : Nat) :
    (initWatched p f d true content.length).pos = content.length ∧
    (initWatched p f d false s).pos = 0 ∧
    handleEvent (initState true content.length) modifyEvent now content =
      (initState true content.length, []) := by
  refine ⟨by simp [initWatched, Watched.set_pos], by simp [initWatched], ?_⟩
  rw [handleEvent_modify]
  unfold readCycle initState initWatched
  simp [List.drop_length, splitLines, processLines, cleanup, FailureMap.new,
    Watched.set_pos]

set_option maxRecDepth 8000 in
/-- Claim C7.  Starting from an empty watched file, three sudo-failure
lines appended at times 0, 1 and 2 seconds produce the sudo alert exactly
once, and after each of the three events the system-auth tracker is still
empty: matches for one pattern never touch the other pattern's
tracker. -/
theorem sudo_burst_alerts_once_system_tracker_empty :
    run (initState true 0)
      [(modifyEvent, 0, sudoLine),
       (modifyEvent, 1, sudoLine ++ sudoLine),
       (modifyEvent, 2, sudoLine ++ sudoLine ++ sudoLine)] =
    ({ watch := { path := "/var/log/auth.log", file := "auth.log",
                  dir := "/var/log", pos := 135 },
       sudo_map := { auth_type := Auth.Sudo, auth_time := [] },
       system_map := { auth_type := Auth.System, auth_time := [] } },
     ["sudo bashing detected"]) ∧
    (run (initState true 0) [(modifyEvent, 0, sudoLine)]
      ).1.system_map.auth_time = [] ∧
    (run (initState true 0)
      [(modifyEvent, 0, sudoLine), (modifyEvent, 1, sudoLine ++ sudoLine)]
      ).1.system_map.auth_time = [] := by
  decide

/-- Claim C8.  A line buffer that strict UTF-8 validation rejects is
still processed: the lossy decode replaces the offending bytes with the
replacement character instead of failing, line processing always returns
a result (it never aborts the monitor), and when the decoded text still
contains the sudo literal the match is recorded as usual. -/
theorem invalid_utf8_replaced_and_processed (bs : List Nat) (now : Nat)
    (s y : FailureMap) (hinv : validUtf8 bs = false) :
    (0xFFFD : Nat) ∈ from_utf8_lossy bs ∧
    (∃ s' y' alerts, processLine bs now s y = (s', y', alerts)) ∧
    (containsSub (from_utf8_lossy bs) (strBytes sudo_failure.message) = true →
      (processLine bs now s y).1.auth_time ≠ s.auth_time) := by
  refine ⟨replacement_of_invalid bs hinv, ⟨_, _, _, rfl⟩, ?_⟩
  intro hc
  unfold processLine
  dsimp only
  rw [hc]
  split_ifs <;>
    (intro heq; have hlen := congrArg List.length heq;
      simp [FailureMap.add] at hlen) <;>
    simp_all [FailureMap.add]

/-- Claim C8, witness: the sudo literal followed by the invalid byte 255
is rejected by strict validation, decoded with a replacement character,
processed without failure, and its sudo match is recorded. -/
theorem invalid_utf8_replaced_and_processed_witness :
    validUtf8 badLine = false ∧
    ((0xFFFD : Nat) ∈ from_utf8_lossy badLine ∧
     (∃ s' y' alerts,
        processLine badLine 5 (FailureMap.new Auth.Sudo)
          (FailureMap.new Auth.System) = (s', y', alerts)) ∧
     (containsSub (from_utf8_lossy badLine) (strBytes sudo_failure.message) = true →
       (processLine badLine 5 (FailureMap.new Auth.Sudo)
          (FailureMap.new Auth.System)).1.auth_time ≠
         (FailureMap.new Auth.Sudo).auth_time)) ∧
    (processLine badLine 5 (FailureMap.new Auth.Sudo)
      (FailureMap.new Auth.System)).1.auth_time = [5] :=
  ⟨by decide,
   invalid_utf8_replaced_and_processed badLine 5 (FailureMap.new Auth.Sudo)
     (FailureMap.new Auth.System) (by decide),
   by decide⟩

/-- Claim C9.  The per-iteration invariant: if both trackers hold at most
2 occurrences before an event is handled, they hold at most 2 after it —
the list is cleared the moment a third entry would be kept, so no tracker
ever carries 3 or more occurrences across loop iterations. -/
theorem tracker_capacity_invariant (st : LoopState) (ev : Event)
    (now : Nat) (content : List Nat)
    (hs : st.sudo_map.auth_time.length ≤ 2)
    (hy : st.system_map.auth_time.length ≤ 2) :
    (handleEvent st ev now content).1.sudo_map.auth_time.length ≤ 2 ∧
    (handleEvent st ev now content).1.system_map.auth_time.length ≤ 2 := by
  unfold handleEvent
  split_ifs with h1 h2 h3 h4
  · exact ⟨hs, hy⟩
  · exact ⟨hs, hy⟩
  · exact ⟨hs, hy⟩
  · exact ⟨hs, hy⟩
  · unfold readCycle
    have hp := processLines_len (splitLines (content.drop st.watch.pos)) now
      st.sudo_map st.system_map hs hy
    rcases hq : processLines (splitLines (content.drop st.watch.pos)) now
        st.sudo_map st.system_map with ⟨s1, y1, a1⟩
    rw [hq] at hp
    dsimp only
    simp only [hq]
    exact ⟨(cleanup_len s1 now).trans hp.1, (cleanup_len y1 now).trans hp.2⟩

/-- Claim C9, witness: the invariant applied to the startup state and a
single sudo-failure line. -/
theorem tracker_capacity_invariant_witness :
    (handleEvent (initState false 0) modifyEvent 0 sudoLine
      ).1.sudo_map.auth_time.length ≤ 2 ∧
    (handleEvent (initState false 0) modifyEvent 0 sudoLine
      ).1.system_map.auth_time.length ≤ 2 :=
  tracker_capacity_invariant _ _ _ _ (by decide) (by decide)

/-- Claim C10.  Every event whose `name` differs from the watched
filename — including directory-level events for unrelated files, which do
carry a `name` — is dispatched to the file-event branch, and when its
mask lacks `MoveSelf` the loop runs the full read cycle on the target
file: stat, open, seek, read, ending with the offset set to the measured
size. -/
theorem unrelated_name_events_run_read_cycle (st : LoopState) (ev : Event)
    (now : Nat) (content : List Nat)
    (hname : ev.name ≠ some st.watch.file)
    (hms : EventMask.MOVE_SELF ∉ ev.mask) :
    handleEvent st ev now content = readCycle st now content ∧
    (handleEvent st ev now content).1.watch.pos = content.length := by
  have h : handleEvent st ev now content = readCycle st now content := by
    unfold handleEvent
    rw [if_neg (fun h => hname h.symm), if_neg hms]
  exact ⟨h, h ▸ readCycle_pos st now content⟩

set_option maxRecDepth 8000 in
/-- Claim C10, witness: a directory `Created` event for an unrelated
filename triggers a full read cycle of the target file. -/
theorem unrelated_name_events_run_read_cycle_witness :
    handleEvent (initState false 0)
      ({ mask := [EventMask.CREATE], name := some "other.log" } : Event)
      3 sudoLine =
      readCycle (initState false 0) 3 sudoLine ∧
    (handleEvent (initState false 0)
      ({ mask := [EventMask.CREATE], name := some "other.log" } : Event)
      3 sudoLine).1.watch.pos = sudoLine.length :=
  unrelated_name_events_run_read_cycle _ _ _ _ (by decide) (by decide)
